import Mathlib

/-!
Shallow embedding of the inventory stock-movement ledger and
specification validator of the `inventory-saas` repository.

The ledger state is the pair of database tables the core mutates:
`StockRecord` rows, keyed by (product, warehouse) and holding
`current_quantity`, and the append-only `StockMovement` rows.
All quantity arithmetic is over `Rat` (the source stores Python floats;
the claims under study are algebraic, not rounding-sensitive).
-/

namespace Inventory

/-- `StockMovement.MOVEMENT_TYPE_CHOICES` from `inventory/models.py`. -/
inductive MovementType
  | IN
  | OUT
  | TRANSFER
deriving DecidableEq, Repr

/-- `StockMovement.REASON_CHOICES` from `inventory/models.py`
(`ret` stands for the "return" choice, a reserved word in Lean). -/
inductive MovementReason
  | sale
  | purchase
  | loss
  | ret
  | adjustment
  | transfer
deriving DecidableEq, Repr

/-- A stock record key: (product id, warehouse id).  `StockRecord` rows are
unique per (product, warehouse) in the source. -/
abbrev RecKey := Nat × Nat

/-- One `StockMovement` row (`inventory/models.py`).  `pk = none` models an
unsaved instance, `pk = some i` a persisted row. -/
structure StockMovement where
  pk : Option Nat
  stock_record : RecKey
  movement_type : MovementType
  quantity : Rat
  resulting_balance : Rat
  reason : MovementReason
  notes : String
  reference_document : String
  unit_cost : Option Int
  from_warehouse : Option Nat
  to_warehouse : Option Nat
deriving DecidableEq, Repr

/-- The database state the ledger reads and writes: the `StockRecord` table
(association list keyed by (product, warehouse), value `current_quantity`)
and the `StockMovement` table. -/
structure DBState where
  records : List (RecKey × Rat)
  movements : List StockMovement
deriving DecidableEq, Repr

/-- Look up a stock record's `current_quantity` by key. -/
def lookupRecord : List (RecKey × Rat) → RecKey → Option Rat
  | [], _ => none
  | e :: rest, k => if e.1 = k then some e.2 else lookupRecord rest k

/-- Overwrite the `current_quantity` of every row with the given key
(the table holds at most one). -/
def setRecord : List (RecKey × Rat) → RecKey → Rat → List (RecKey × Rat)
  | [], _, _ => []
  | e :: rest, k, q => (if e.1 = k then (k, q) else e) :: setRecord rest k q

/-- `StockRecord.objects.get_or_create(product=…, warehouse=…,
defaults={"current_quantity": 0})`: returns the updated table and the
record's current quantity. -/
def get_or_create (rs : List (RecKey × Rat)) (k : RecKey) :
    List (RecKey × Rat) × Rat :=
  match lookupRecord rs k with
  | some c => (rs, c)
  | none => (rs ++ [(k, 0)], 0)

/-- The signed contribution of one movement row in
`StockRecord.calculate_quantity_from_movements`: the `Case`/`When`
expression mapping IN to `+quantity`, OUT to `-quantity` and everything
else (TRANSFER) to the default `0`. -/
def movementSigned (m : StockMovement) : Rat :=
  match m.movement_type with
  | .IN => m.quantity
  | .OUT => -m.quantity
  | .TRANSFER => 0

/-- Sum of signed contributions of the movements referencing a record
(the `aggregate(total=Sum(Case(...)))` with `or 0` for the empty case). -/
def calcFromMovements : List StockMovement → RecKey → Rat
  | [], _ => 0
  | m :: rest, k =>
      (if m.stock_record = k then movementSigned m else 0) + calcFromMovements rest k

/-- `StockRecord.calculate_quantity_from_movements` (`inventory/models.py`). -/
def calculate_quantity_from_movements (s : DBState) (k : RecKey) : Rat :=
  calcFromMovements s.movements k

/-- `StockRecord.reconcile` (`inventory/models.py`): overwrite
`current_quantity` with the calculated value when they differ; the Bool is
the method's return value (`changed`). -/
def reconcile (s : DBState) (k : RecKey) : DBState × Bool :=
  let calculated := calculate_quantity_from_movements s k
  let current := (lookupRecord s.records k).getD 0
  if current ≠ calculated then
    ({ s with records := setRecord s.records k calculated }, true)
  else
    (s, false)

/-- `StockMovement.save` (`inventory/models.py`): on a new instance
(`pk is None`) compute `resulting_balance` from the record's current
quantity and the signed quantity, insert the row, and write the new
balance back to the stock record; on a persisted instance just update the
row in place. -/
def modelSave (s : DBState) (m : StockMovement) : DBState × StockMovement :=
  match m.pk with
  | none =>
      let current := (lookupRecord s.records m.stock_record).getD 0
      let rb :=
        match m.movement_type with
        | .IN => current + m.quantity
        | .OUT => current - m.quantity
        | .TRANSFER => current
      let m' := { m with pk := some s.movements.length, resulting_balance := rb }
      (⟨setRecord s.records m.stock_record rb, s.movements ++ [m']⟩, m')
  | some i =>
      (⟨s.records, s.movements.map (fun x => if x.pk = some i then m else x)⟩, m)

/-- Input of `StockMovementCreateSerializer` (`stock_serializers.py`). -/
structure MovementRequest where
  product : Nat
  warehouse : Nat
  movement_type : MovementType
  quantity : Rat
  reason : MovementReason
  notes : String
  reference_document : String
  unit_cost : Option Int
  to_warehouse : Option Nat
deriving DecidableEq, Repr

/-- Domain errors raised by the serializers (`serializers.ValidationError`
payloads, by kind). -/
inductive LedgerError
  | invalidQuantity
  | insufficientStock (available : Rat)
  | transferRequiresDestination
  | sameWarehouseTransfer
  | movementNotFound
  | blankNotes
  | noOpAdjustment
deriving DecidableEq, Repr

/-- The `@transaction.atomic create` of `StockMovementCreateSerializer`:
create the movement (its `save` fixes `resulting_balance` and the record
balance); for a transfer additionally debit the origin record and create
the destination-side IN movement.  `wname` resolves a warehouse id to its
name (used only in the destination movement's notes). -/
def createMovementTx (wname : Nat → String) (s : DBState) (r : MovementRequest) :
    DBState × Except LedgerError StockMovement :=
  let mov0 : StockMovement :=
    { pk := none
      stock_record := (r.product, r.warehouse)
      movement_type := r.movement_type
      quantity := r.quantity
      resulting_balance := 0
      reason := r.reason
      notes := r.notes
      reference_document := r.reference_document
      unit_cost := r.unit_cost
      from_warehouse := if r.movement_type = .TRANSFER then some r.warehouse else none
      to_warehouse := r.to_warehouse }
  let sm := modelSave s mov0
  match r.movement_type, r.to_warehouse with
  | .TRANSFER, some w =>
      let origin : RecKey := (r.product, r.warehouse)
      let originBal := (lookupRecord sm.1.records origin).getD 0
      let s3 : DBState := { sm.1 with records := setRecord sm.1.records origin (originBal - r.quantity) }
      let rsd := get_or_create s3.records (r.product, w)
      let s4 : DBState := { s3 with records := rsd.1 }
      let destMov : StockMovement :=
        { pk := none
          stock_record := (r.product, w)
          movement_type := .IN
          quantity := r.quantity
          resulting_balance := rsd.2 + r.quantity
          reason := .transfer
          notes := "Transfer from " ++ wname r.warehouse
          reference_document := r.reference_document
          unit_cost := r.unit_cost
          from_warehouse := some r.warehouse
          to_warehouse := some w }
      ((modelSave s4 destMov).1, .ok sm.2)
  | _, _ => (sm.1, .ok sm.2)

/-- `StockMovementCreateSerializer` end to end: field validation
(`quantity = FloatField(min_value=0.01)`), object-level `validate`
(get-or-create of the stock record, the OUT insufficient-stock check and
the transfer destination checks), then the atomic `create`.  Note that the
get-or-create happens during validation, before the transaction, so a
record created there persists even when validation then fails. -/
def postMovement (wname : Nat → String) (s : DBState) (r : MovementRequest) :
    DBState × Except LedgerError StockMovement :=
  if r.quantity < 1 / 100 then (s, .error .invalidQuantity)
  else
    let rc := get_or_create s.records (r.product, r.warehouse)
    let s1 : DBState := { s with records := rc.1 }
    if r.movement_type = .OUT ∧ r.quantity > rc.2 then
      (s1, .error (.insufficientStock rc.2))
    else if r.movement_type = .TRANSFER then
      match r.to_warehouse with
      | none => (s1, .error .transferRequiresDestination)
      | some w =>
          if w = r.warehouse then (s1, .error .sameWarehouseTransfer)
          else createMovementTx wname s1 r
    else
      createMovementTx wname s1 r

/-- Python `repr` of a float balance as used in the adjustment note
(integral rationals render with the trailing `.0` Python prints). -/
def pyFloatStr (q : Rat) : String :=
  if q.den = 1 then toString q.num ++ ".0" else toString q

/-- The note text built by `StockAdjustmentSerializer.create`:
`f"Adjustment: {notes} (from {current_quantity} to {new_quantity})"`. -/
def adjustmentNote (notes : String) (before after : Rat) : String :=
  "Adjustment: " ++ notes ++ " (from " ++ pyFloatStr before ++ " to " ++ pyFloatStr after ++ ")"

/-- `StockAdjustmentSerializer` end to end: field validation
(`new_quantity = FloatField(min_value=0)`, `notes = CharField(required=True)`),
then the atomic `create`: get-or-create the record, fail when the
difference is zero (the transaction rolls the record creation back),
otherwise post one IN/OUT movement for the absolute difference. -/
def postAdjustment (s : DBState) (product warehouse : Nat) (new_quantity : Rat)
    (notes : String) : DBState × Except LedgerError StockMovement :=
  if new_quantity < 0 then (s, .error .invalidQuantity)
  else if notes = "" then (s, .error .blankNotes)
  else
    let rc := get_or_create s.records (product, warehouse)
    let s1 : DBState := { s with records := rc.1 }
    let current_quantity := rc.2
    let difference := new_quantity - current_quantity
    if difference = 0 then (s, .error .noOpAdjustment)
    else
      let movement_type := if difference > 0 then MovementType.IN else MovementType.OUT
      let quantity := |difference|
      let mov0 : StockMovement :=
        { pk := none
          stock_record := (product, warehouse)
          movement_type := movement_type
          quantity := quantity
          resulting_balance := new_quantity
          reason := .adjustment
          notes := adjustmentNote notes current_quantity new_quantity
          reference_document := ""
          unit_cost := none
          from_warehouse := none
          to_warehouse := none }
      let sm := modelSave s1 mov0
      (sm.1, .ok sm.2)

/-- `StockMovementViewSet.destroy` (`views/stock_views.py`): every delete
request is answered with the fixed domain error and touches nothing. -/
def destroyMovement (s : DBState) (_pk : Nat) : DBState × Except String Unit :=
  (s, .error "Stock movements cannot be deleted. Please create an adjustment if needed.")

/-- Writable fields of `StockMovementSerializer` (`account`,
`resulting_balance` and `created_at` are read-only). -/
structure MovementUpdateRequest where
  stock_record : RecKey
  movement_type : MovementType
  quantity : Rat
  reason : MovementReason
  notes : String
  reference_document : String
  unit_cost : Option Int
  from_warehouse : Option Nat
  to_warehouse : Option Nat
deriving DecidableEq, Repr

/-- Find a persisted movement row by primary key. -/
def findMovement : List StockMovement → Nat → Option StockMovement
  | [], _ => none
  | m :: rest, i => if m.pk = some i then some m else findMovement rest i

/-- `StockMovementViewSet` update (PUT), inherited from `ModelViewSet`:
run `StockMovementSerializer.validate` on the incoming data, then write
the instance's writable fields and `save` it (a persisted instance, so
`StockMovement.save` takes its update branch). -/
def updateMovement (s : DBState) (i : Nat) (r : MovementUpdateRequest) :
    DBState × Except LedgerError StockMovement :=
  match findMovement s.movements i with
  | none => (s, .error .movementNotFound)
  | some old =>
      if r.quantity < 1 / 100 then (s, .error .invalidQuantity)
      else
        let current := (lookupRecord s.records r.stock_record).getD 0
        if r.movement_type = .OUT ∧ r.quantity > current then
          (s, .error (.insufficientStock current))
        else if r.movement_type = .TRANSFER ∧ (r.from_warehouse = none ∨ r.to_warehouse = none) then
          (s, .error .transferRequiresDestination)
        else if r.movement_type = .TRANSFER ∧ r.from_warehouse = r.to_warehouse then
          (s, .error .sameWarehouseTransfer)
        else
          let updated : StockMovement :=
            { pk := old.pk
              stock_record := r.stock_record
              movement_type := r.movement_type
              quantity := r.quantity
              resulting_balance := old.resulting_balance
              reason := r.reason
              notes := r.notes
              reference_document := r.reference_document
              unit_cost := r.unit_cost
              from_warehouse := r.from_warehouse
              to_warehouse := r.to_warehouse }
          let sm := modelSave s updated
          (sm.1, .ok sm.2)

/-! ## Specification validator (`ProductSerializer.validate`,
`inventory/serializers/product_serializers.py`) -/

/-- `DATA_TYPE_CHOICES` of the attribute models. -/
inductive DataType
  | text
  | number
  | boolean
  | date
  | decimal
deriving DecidableEq, Repr

/-- A JSON value as stored in a product's `specifications` map.
`vNull` is Python `None`. -/
inductive Value
  | vNull
  | vStr (s : String)
  | vNum (q : Rat)
  | vBool (b : Bool)
deriving DecidableEq, Repr

/-- One active `TemplateAttribute` with its resolved underlying attribute
(`template_attr.custom_attribute or template_attr.global_attribute`):
the attribute's slug, display name and data type, plus the template-level
required flag and default value (a `CharField`, empty when unset). -/
structure TemplateAttr where
  slug : String
  name : String
  data_type : DataType
  is_required : Bool
  default_value : String
deriving DecidableEq, Repr

/-- Dictionary lookup on the specifications map. -/
def lookupSpec : List (String × Value) → String → Option Value
  | [], _ => none
  | e :: rest, k => if e.1 = k then some e.2 else lookupSpec rest k

/-- Python truthiness of a specification value (`not attr_value`). -/
def pyTruthy : Value → Bool
  | .vNull => false
  | .vStr s => decide (s ≠ "")
  | .vNum q => decide (q ≠ 0)
  | .vBool b => b

/-- Python `attr_value == 0` (`False == 0` holds in Python). -/
def pyEqZero : Value → Bool
  | .vNum q => decide (q = 0)
  | .vBool b => !b
  | _ => false

/-- Python `attr_value == False` (`0 == False` holds in Python). -/
def pyEqFalse : Value → Bool
  | .vBool b => !b
  | .vNum q => decide (q = 0)
  | _ => false

/-- Digits of a numeral read left to right. -/
def natOfDigits (cs : List Char) : Nat :=
  cs.foldl (fun acc c => acc * 10 + (c.toNat - 48)) 0

/-- Optional exponent suffix of a Python float literal. -/
def parseExponent (base : Rat) : List Char → Option Rat
  | [] => some base
  | e :: rest =>
      if e = 'e' ∨ e = 'E' then
        let sr : Int × List Char :=
          match rest with
          | '+' :: r => (1, r)
          | '-' :: r => (-1, r)
          | r => (1, r)
        let ds := sr.2.takeWhile (·.isDigit)
        let rest3 := sr.2.dropWhile (·.isDigit)
        if ds.isEmpty ∨ ¬rest3.isEmpty then none
        else some (base * (10 : Rat) ^ (sr.1 * (natOfDigits ds : Int)))
      else none

/-- Unsigned part of a Python float literal: digits, optional fractional
part, optional exponent. -/
def parseFloatCore (cs : List Char) : Option Rat :=
  let ip := cs.takeWhile (·.isDigit)
  let rest1 := cs.dropWhile (·.isDigit)
  match rest1 with
  | [] => if ip.isEmpty then none else some (natOfDigits ip)
  | '.' :: rest2 =>
      let fp := rest2.takeWhile (·.isDigit)
      let rest3 := rest2.dropWhile (·.isDigit)
      if ip.isEmpty ∧ fp.isEmpty then none
      else
        parseExponent ((natOfDigits ip : Rat) + (natOfDigits fp : Rat) / (10 : Rat) ^ fp.length) rest3
  | _ =>
      if ip.isEmpty then none else parseExponent (natOfDigits ip) rest1

/-- `float(s)` on a string: optional sign around the unsigned literal
(surrounding whitespace already stripped by the caller). -/
def parseFloatString (s : String) : Option Rat :=
  match s.data with
  | [] => none
  | '+' :: cs => parseFloatCore cs
  | '-' :: cs => (parseFloatCore cs).map (fun q => -q)
  | cs => parseFloatCore cs

/-- Python `float(value)` over specification values: numbers pass through,
booleans coerce to 1/0, strings are parsed, `None` raises. -/
def pyFloat : Value → Option Rat
  | .vNum q => some q
  | .vBool b => some (if b then 1 else 0)
  | .vStr s => parseFloatString s.trim
  | .vNull => none

/-- Python `str(value)` for the `Decimal(str(value))` coercion. -/
def pyStr : Value → String
  | .vNull => "None"
  | .vBool true => "True"
  | .vBool false => "False"
  | .vNum q => pyFloatStr q
  | .vStr s => s

/-- `Decimal(s)`: accepts a (signed) decimal literal and yields its string
form; anything unparsable raises `InvalidOperation`. -/
def pyDecimalOfStr (s : String) : Option String :=
  if (parseFloatString s.trim).isSome then some s.trim else none

/-- Gregorian leap year. -/
def isLeap (y : Nat) : Bool := decide ((y % 4 = 0 ∧ y % 100 ≠ 0) ∨ y % 400 = 0)

/-- Days in a month. -/
def daysInMonth (y m : Nat) : Nat :=
  if m = 2 then (if isLeap y then 29 else 28)
  else if m = 4 ∨ m = 6 ∨ m = 9 ∨ m = 11 then 30
  else 31

/-- `strptime` calendar validity of a year/month/day triple. -/
def validYMD (y m d : Nat) : Bool :=
  decide (1 ≤ m ∧ m ≤ 12 ∧ 1 ≤ d ∧ d ≤ daysInMonth y m ∧ 1 ≤ y ∧ y ≤ 9999)

/-- A run of decimal digits as a number. -/
def parseNatDigits (s : String) : Option Nat :=
  if s.length > 0 ∧ s.data.all (·.isDigit) then some (natOfDigits s.data) else none

/-- Year/month/day fields parsed and checked. -/
def parseDateParts (ys ms ds : String) : Option (Nat × Nat × Nat) := do
  let y ← parseNatDigits ys
  let m ← parseNatDigits ms
  let d ← parseNatDigits ds
  if validYMD y m d then some (y, m, d) else none

/-- Left-pad a number with zeros to the given width. -/
def padZero (n width : Nat) : String :=
  let s := toString n
  String.mk (List.replicate (width - s.length) '0') ++ s

/-- `strftime("%Y-%m-%d")`. -/
def formatYMD (y m d : Nat) : String :=
  padZero y 4 ++ "-" ++ padZero m 2 ++ "-" ++ padZero d 2

/-- The date coercion: try `%Y-%m-%d`, `%d-%m-%Y`, `%d/%m/%Y` in order and
normalize to `%Y-%m-%d`. -/
def tryParseDate (s : String) : Option String :=
  match s.splitOn "-" with
  | [a, b, c] =>
      match parseDateParts a b c with
      | some t => some (formatYMD t.1 t.2.1 t.2.2)
      | none =>
          match parseDateParts c b a with
          | some t => some (formatYMD t.1 t.2.1 t.2.2)
          | none => none
  | _ =>
      match s.splitOn "/" with
      | [a, b, c] => (parseDateParts c b a).map (fun t => formatYMD t.1 t.2.1 t.2.2)
      | _ => none

/-- `ProductSerializer._validate_attribute_value`: per-data-type coercion,
returning the coerced value or the per-field error message. -/
def validateAttributeValue (value : Value) (data_type : DataType) (attr_name : String) :
    Except String Value :=
  match data_type with
  | .text =>
      match value with
      | .vStr s => .ok (.vStr s.trim)
      | _ => .error (attr_name ++ " must be text")
  | .number =>
      match pyFloat value with
      | some q => .ok (.vNum q)
      | none => .error (attr_name ++ " must be a valid number")
  | .decimal =>
      match pyDecimalOfStr (pyStr value) with
      | some c => .ok (.vStr c)
      | none => .error (attr_name ++ " must be a valid decimal number")
  | .boolean =>
      match value with
      | .vBool b => .ok (.vBool b)
      | .vStr s =>
          let l := s.toLower.trim
          if l = "true" ∨ l = "1" ∨ l = "yes" ∨ l = "si" ∨ l = "sí" then .ok (.vBool true)
          else if l = "false" ∨ l = "0" ∨ l = "no" then .ok (.vBool false)
          else .error (attr_name ++ " must be true/false")
      | _ => .error (attr_name ++ " must be true/false")
  | .date =>
      match value with
      | .vStr s =>
          match tryParseDate s with
          | some d => .ok (.vStr d)
          | none =>
              .error (attr_name ++ " must be a valid date (YYYY-MM-DD, DD-MM-YYYY, or DD/MM/YYYY)")
      | _ => .error (attr_name ++ " must be a date string")

/-- One iteration of the `for template_attr in template_attrs` loop of
`ProductSerializer.validate`, threading the `errors` and
`validated_specs` accumulators. -/
def processAttr (specs : List (String × Value))
    (acc : List (String × String) × List (String × Value)) (ta : TemplateAttr) :
    List (String × String) × List (String × Value) :=
  let v0 := (lookupSpec specs ta.slug).getD .vNull
  let missing := ta.is_required && !(pyTruthy v0) && !(pyEqZero v0) && !(pyEqFalse v0)
  if missing && (ta.default_value == "") then
    (acc.1 ++ [(ta.slug, ta.name ++ " is required")], acc.2)
  else
    let v := if missing then Value.vStr ta.default_value else v0
    if v = .vNull ∨ v = .vStr "" then acc
    else
      match validateAttributeValue v ta.data_type ta.name with
      | .ok vv => (acc.1, acc.2 ++ [(ta.slug, vv)])
      | .error e => (acc.1 ++ [(ta.slug, e)], acc.2)

/-- Specification keys not defined by the template (`set(specifications)
minus the template's slugs`), in map order. -/
def unknownKeys (tas : List TemplateAttr) (specs : List (String × Value)) : List String :=
  (specs.map (fun e => e.1)).filter (fun k => decide (k ∉ tas.map (fun ta => ta.slug)))

/-- `", ".join`. -/
def joinComma : List String → String
  | [] => ""
  | [s] => s
  | s :: rest => s ++ ", " ++ joinComma rest

/-- `ProductSerializer.validate` on a template's active attributes and a
specifications map: collect per-attribute errors and validated values,
add the aggregate unknown-attributes error, fail iff any error was
collected. -/
def validateSpecifications (tas : List TemplateAttr) (specs : List (String × Value)) :
    Except (List (String × String)) (List (String × Value)) :=
  let acc := tas.foldl (processAttr specs) ([], [])
  let unknown := unknownKeys tas specs
  let errors :=
    if unknown = [] then acc.1
    else acc.1 ++ [("specifications", "Unknown attributes not in template: " ++ joinComma unknown)]
  if errors = [] then .ok acc.2 else .error errors

/-- The error entry (if any) that `processAttr` appends for one template
attribute: the derived per-attribute offence of `ProductSerializer.validate`
(missing required value with no default, or failed data-type coercion). -/
def attrErrorEntry (specs : List (String × Value)) (ta : TemplateAttr) :
    Option (String × String) :=
  let v0 := (lookupSpec specs ta.slug).getD .vNull
  let missing := ta.is_required && !(pyTruthy v0) && !(pyEqZero v0) && !(pyEqFalse v0)
  if missing && (ta.default_value == "") then some (ta.slug, ta.name ++ " is required")
  else
    let v := if missing then Value.vStr ta.default_value else v0
    if v = .vNull ∨ v = .vStr "" then none
    else
      match validateAttributeValue v ta.data_type ta.name with
      | .ok _ => none
      | .error e => some (ta.slug, e)

/-! ## Operation sequences over the ledger -/

/-- One external write operation of the ledger API: a movement-creation
request or an adjustment request. -/
inductive Op
  | move (r : MovementRequest)
  | adjustOp (product warehouse : Nat) (new_quantity : Rat) (notes : String)
deriving DecidableEq, Repr

/-- An operation that is not a transfer. -/
def transferFree : Op → Bool
  | .move r => decide (r.movement_type ≠ .TRANSFER)
  | .adjustOp _ _ _ _ => true

/-- Apply one operation, keeping whatever state the endpoint leaves behind
(on success or on failure). -/
def applyOp (wname : Nat → String) (s : DBState) : Op → DBState
  | .move r => (postMovement wname s r).1
  | .adjustOp p w q n => (postAdjustment s p w q n).1

/-- Run a sequence of operations. -/
def runOps (wname : Nat → String) (ops : List Op) (s : DBState) : DBState :=
  ops.foldl (applyOp wname) s

/-- The empty database. -/
def initialState : DBState := ⟨[], []⟩

/-- The balance invariant of the spec: every stock record's stored
`current_quantity` equals the signed sum of the movements referencing it,
and every movement references an existing record. -/
def BalancesMatch (s : DBState) : Prop :=
  (∀ e ∈ s.records, e.2 = calcFromMovements s.movements e.1) ∧
  (∀ m ∈ s.movements, (lookupRecord s.records m.stock_record).isSome)

/-! ## Concrete instances used by the per-claim counterexamples and
witnesses -/

/-- A warehouse-name lookup used by concrete scenarios. -/
def wnames : Nat → String
  | 1 => "A"
  | 2 => "B"
  | _ => "W"

/-- C1 failing input: one record, product 1 in warehouse 1, at quantity 5. -/
def c1State : DBState := ⟨[((1, 1), 5)], []⟩

/-- C1 failing input: transfer 10 units of product 1 from warehouse 1 to
warehouse 2 — more than the origin's balance of 5. -/
def c1Request : MovementRequest :=
  { product := 1, warehouse := 1, movement_type := .TRANSFER, quantity := 10
    reason := .transfer, notes := "", reference_document := "", unit_cost := none
    to_warehouse := some 2 }

/-- C2 counterexample: product 1 in warehouse 1 at 100, with the matching
IN-movement history. -/
def c2State : DBState :=
  ⟨[((1, 1), 100)],
   [{ pk := some 0, stock_record := (1, 1), movement_type := .IN, quantity := 100
      resulting_balance := 100, reason := .purchase, notes := ""
      reference_document := "", unit_cost := none, from_warehouse := none
      to_warehouse := none }]⟩

/-- C2/C3 scenario request: transfer 30 units of product 1 from warehouse 1
to warehouse 2. -/
def transfer30 : MovementRequest :=
  { product := 1, warehouse := 1, movement_type := .TRANSFER, quantity := 30
    reason := .transfer, notes := "", reference_document := "", unit_cost := none
    to_warehouse := some 2 }

/-- C2 witness operations: IN 30 (purchase), OUT 5 (sale), adjust to 45. -/
def c2WitnessOps : List Op :=
  [.move { product := 1, warehouse := 1, movement_type := .IN, quantity := 30
           reason := .purchase, notes := "", reference_document := ""
           unit_cost := some 500, to_warehouse := none },
   .move { product := 1, warehouse := 1, movement_type := .OUT, quantity := 5
           reason := .sale, notes := "", reference_document := ""
           unit_cost := none, to_warehouse := none },
   .adjustOp 1 1 45 "count"]

/-- C3 counterexample: warehouse A (id 1) holds 100 of product 1,
warehouse B (id 2) holds nothing. -/
def c3State : DBState := ⟨[((1, 1), 100)], []⟩

/-- C4 witness state: product 1 in warehouse 1 at 10. -/
def c4State : DBState := ⟨[((1, 1), 10)], []⟩

/-- C4 witness request: OUT 100 against a balance of 10. -/
def c4OutBig : MovementRequest :=
  { product := 1, warehouse := 1, movement_type := .OUT, quantity := 100
    reason := .sale, notes := "", reference_document := "", unit_cost := none
    to_warehouse := none }

/-- C4 witness request: OUT 4 against a balance of 10. -/
def c4OutSmall : MovementRequest :=
  { product := 1, warehouse := 1, movement_type := .OUT, quantity := 4
    reason := .sale, notes := "", reference_document := "", unit_cost := none
    to_warehouse := none }

/-- C5 witness state: product 1 in warehouse 1 at 40. -/
def c5State : DBState := ⟨[((1, 1), 40)], []⟩

/-- C6 counterexample: a committed IN movement of 20 (pk 0) on the record
of product 1 in warehouse 1. -/
def c6State : DBState :=
  ⟨[((1, 1), 50)],
   [{ pk := some 0, stock_record := (1, 1), movement_type := .IN, quantity := 20
      resulting_balance := 20, reason := .purchase, notes := "original"
      reference_document := "", unit_cost := none, from_warehouse := none
      to_warehouse := none }]⟩

/-- C6 counterexample: an update request rewriting the movement's notes. -/
def c6Update : MovementUpdateRequest :=
  { stock_record := (1, 1), movement_type := .IN, quantity := 20
    reason := .purchase, notes := "edited", reference_document := ""
    unit_cost := none, from_warehouse := none, to_warehouse := none }

/-- C7 witness state: a record at 7 whose history sums to 30. -/
def c7State : DBState :=
  ⟨[((1, 1), 7)],
   [{ pk := some 0, stock_record := (1, 1), movement_type := .IN, quantity := 30
      resulting_balance := 30, reason := .purchase, notes := ""
      reference_document := "", unit_cost := none, from_warehouse := none
      to_warehouse := none }]⟩

/-- C8 counterexample template: one required number attribute `ram`. -/
def c8Template : List TemplateAttr := [⟨"ram", "Ram", .number, true, ""⟩]

/-- C8 counterexample specifications: two unknown keys. -/
def c8Specs : List (String × Value) := [("foo", .vNum 1), ("bar", .vNum 2)]

/-- C8 witness template: required number `ram` and required text `brand`. -/
def c8WitnessTemplate : List TemplateAttr :=
  [⟨"ram", "Ram", .number, true, ""⟩, ⟨"brand", "Brand", .text, true, ""⟩]

/-- C8 witness specifications: `ram` fails number coercion, `brand` is
missing, and `zzz` is not in the template. -/
def c8WitnessSpecs : List (String × Value) := [("ram", .vStr "abc"), ("zzz", .vNum 3)]

/-- C10 witness: a persisted movement row (pk 3). -/
def c10Movement : StockMovement :=
  { pk := some 3, stock_record := (1, 1), movement_type := .OUT, quantity := 2
    resulting_balance := 8, reason := .sale, notes := "", reference_document := ""
    unit_cost := none, from_warehouse := none, to_warehouse := none }

/-- C10 witness state containing the persisted row. -/
def c10State : DBState := ⟨[((1, 1), 8)], [c10Movement]⟩

/-- C9 witness input: a TRANSFER-typed movement row. -/
def c9TransferMovement : StockMovement :=
  { pk := some 9, stock_record := (1, 1), movement_type := .TRANSFER, quantity := 12
    resulting_balance := 7, reason := .transfer, notes := "", reference_document := ""
    unit_cost := none, from_warehouse := some 1, to_warehouse := some 2 }

/-! ## Association-list and movement-sum lemmas -/

theorem lookupRecord_append_some {rs : List (RecKey × Rat)} {k : RecKey} {c : Rat}
    (l : List (RecKey × Rat)) (h : lookupRecord rs k = some c) :
    lookupRecord (rs ++ l) k = some c := by
  induction rs with
  | nil => simp [lookupRecord] at h
  | cons e rest ih =>
      by_cases hek : e.1 = k
      · simp only [lookupRecord, if_pos hek] at h
        simp only [List.cons_append, lookupRecord, if_pos hek]
        exact h
      · simp only [lookupRecord, if_neg hek] at h
        simp only [List.cons_append, lookupRecord, if_neg hek]
        exact ih h

theorem lookupRecord_append_none {rs : List (RecKey × Rat)} {k : RecKey}
    (l : List (RecKey × Rat)) (h : lookupRecord rs k = none) :
    lookupRecord (rs ++ l) k = lookupRecord l k := by
  induction rs with
  | nil => simp
  | cons e rest ih =>
      by_cases hek : e.1 = k
      · simp only [lookupRecord, if_pos hek] at h
        exact absurd h (by simp)
      · simp only [lookupRecord, if_neg hek] at h
        simp only [List.cons_append, lookupRecord, if_neg hek]
        exact ih h

theorem lookupRecord_mem {rs : List (RecKey × Rat)} {k : RecKey} {c : Rat}
    (h : lookupRecord rs k = some c) : (k, c) ∈ rs := by
  induction rs with
  | nil => simp [lookupRecord] at h
  | cons e rest ih =>
      by_cases hek : e.1 = k
      · simp only [lookupRecord, if_pos hek] at h
        injection h with h
        have hke : (k, c) = e := by
          calc (k, c) = (e.1, e.2) := by rw [hek, h]
          _ = e := rfl
        rw [hke]
        exact List.mem_cons_self _ _
      · simp only [lookupRecord, if_neg hek] at h
        exact List.mem_cons_of_mem _ (ih h)

theorem lookupRecord_setRecord_self {rs : List (RecKey × Rat)} {k : RecKey} {c : Rat}
    (v : Rat) (h : lookupRecord rs k = some c) :
    lookupRecord (setRecord rs k v) k = some v := by
  induction rs with
  | nil => simp [lookupRecord] at h
  | cons e rest ih =>
      by_cases hek : e.1 = k
      · simp [setRecord, lookupRecord, if_pos hek]
      · simp only [lookupRecord, if_neg hek] at h
        simp only [setRecord, if_neg hek, lookupRecord]
        exact ih h

theorem lookupRecord_setRecord_ne {k k' : RecKey} (rs : List (RecKey × Rat)) (v : Rat)
    (h : k' ≠ k) : lookupRecord (setRecord rs k v) k' = lookupRecord rs k' := by
  induction rs with
  | nil => simp [setRecord]
  | cons e rest ih =>
      by_cases hek : e.1 = k
      · simp only [setRecord, if_pos hek, lookupRecord]
        rw [if_neg (fun hkk => h hkk.symm), if_neg (by rw [hek]; exact fun hkk => h hkk.symm)]
        exact ih
      · simp only [setRecord, if_neg hek, lookupRecord]
        by_cases hek' : e.1 = k'
        · rw [if_pos hek', if_pos hek']
        · rw [if_neg hek', if_neg hek']
          exact ih

theorem isSome_lookupRecord_setRecord (rs : List (RecKey × Rat)) (k : RecKey) (v : Rat)
    (k' : RecKey) :
    (lookupRecord (setRecord rs k v) k').isSome = (lookupRecord rs k').isSome := by
  induction rs with
  | nil => simp [setRecord]
  | cons e rest ih =>
      by_cases hek : e.1 = k
      · by_cases hkk : k = k'
        · subst hkk
          simp [setRecord, if_pos hek, lookupRecord, hek]
        · simp only [setRecord, if_pos hek, lookupRecord]
          rw [if_neg (fun hc => hkk hc), if_neg (by rw [hek]; exact fun hc => hkk hc)]
          exact ih
      · simp only [setRecord, if_neg hek, lookupRecord]
        by_cases hek' : e.1 = k'
        · rw [if_pos hek', if_pos hek']
        · rw [if_neg hek', if_neg hek']
          exact ih

theorem mem_setRecord {rs : List (RecKey × Rat)} {k : RecKey} {v : Rat}
    {e : RecKey × Rat} (h : e ∈ setRecord rs k v) :
    e = (k, v) ∨ (e ∈ rs ∧ e.1 ≠ k) := by
  induction rs with
  | nil => simp [setRecord] at h
  | cons e0 rest ih =>
      simp only [setRecord] at h
      rcases List.mem_cons.mp h with h1 | h1
      · by_cases he0 : e0.1 = k
        · rw [if_pos he0] at h1
          exact Or.inl h1
        · rw [if_neg he0] at h1
          exact Or.inr ⟨by rw [h1]; exact List.mem_cons_self _ _, by rw [h1]; exact he0⟩
      · rcases ih h1 with h2 | h2
        · exact Or.inl h2
        · exact Or.inr ⟨List.mem_cons_of_mem _ h2.1, h2.2⟩

theorem calcFromMovements_append (ms : List StockMovement) (m : StockMovement)
    (k : RecKey) :
    calcFromMovements (ms ++ [m]) k
      = calcFromMovements ms k + (if m.stock_record = k then movementSigned m else 0) := by
  induction ms with
  | nil => simp [calcFromMovements]
  | cons m0 rest ih =>
      have hstep : (m0 :: rest) ++ [m] = m0 :: (rest ++ [m]) := rfl
      rw [hstep, calcFromMovements, calcFromMovements, ih]
      ring

theorem calcFromMovements_eq_zero {ms : List StockMovement} {k : RecKey}
    (h : ∀ m ∈ ms, m.stock_record ≠ k) : calcFromMovements ms k = 0 := by
  induction ms with
  | nil => rfl
  | cons m0 rest ih =>
      simp only [calcFromMovements]
      rw [if_neg (h m0 (List.mem_cons_self _ _)),
        ih (fun m hm => h m (List.mem_cons_of_mem _ hm))]
      ring

theorem get_or_create_snd (rs : List (RecKey × Rat)) (k : RecKey) :
    (get_or_create rs k).2 = (lookupRecord rs k).getD 0 := by
  unfold get_or_create
  cases h : lookupRecord rs k <;> simp [h]

theorem lookupRecord_get_or_create (rs : List (RecKey × Rat)) (k : RecKey) :
    lookupRecord (get_or_create rs k).1 k = some ((lookupRecord rs k).getD 0) := by
  unfold get_or_create
  cases h : lookupRecord rs k with
  | none => simp [lookupRecord_append_none _ h, lookupRecord]
  | some c => simp [h]

theorem calcFromMovements_eq_map_sum (ms : List StockMovement) (k : RecKey) :
    calcFromMovements ms k
      = (ms.map (fun m => if m.stock_record = k then movementSigned m else 0)).sum := by
  induction ms with
  | nil => rfl
  | cons m0 rest ih => simp [calcFromMovements, ih]


theorem balances_goc (rs : List (RecKey × Rat)) (ms : List StockMovement) (k : RecKey)
    (h : BalancesMatch ⟨rs, ms⟩) :
    BalancesMatch ⟨(get_or_create rs k).1, ms⟩ := by
  unfold get_or_create
  cases hl : lookupRecord rs k with
  | some c => exact h
  | none =>
      constructor
      · intro e he
        rcases List.mem_append.mp he with h1 | h1
        · exact h.1 e h1
        · have he2 : e = (k, 0) := by simpa using h1
          have hnok : ∀ m ∈ ms, m.stock_record ≠ k := by
            intro m hm hk
            have hs := h.2 m hm
            rw [hk, hl] at hs
            simp at hs
          rw [he2]
          exact (calcFromMovements_eq_zero hnok).symm
      · intro m hm
        obtain ⟨c, hc⟩ := Option.isSome_iff_exists.mp (h.2 m hm)
        rw [lookupRecord_append_some _ hc]
        rfl

theorem balances_insert (rs : List (RecKey × Rat)) (ms : List StockMovement)
    (k : RecKey) (m' : StockMovement) (rb : Rat)
    (h : BalancesMatch ⟨rs, ms⟩)
    (hk : m'.stock_record = k)
    (hsome : (lookupRecord rs k).isSome)
    (hrb : rb = (lookupRecord rs k).getD 0 + movementSigned m') :
    BalancesMatch ⟨setRecord rs k rb, ms ++ [m']⟩ := by
  obtain ⟨c, hc⟩ := Option.isSome_iff_exists.mp hsome
  have hceq : c = calcFromMovements ms k := h.1 _ (lookupRecord_mem hc)
  have hrb2 : rb = calcFromMovements (ms ++ [m']) k := by
    rw [calcFromMovements_append, if_pos hk, hrb, hc, Option.getD_some, hceq]
  constructor
  · intro e he
    rcases mem_setRecord he with h1 | h1
    · rw [h1]
      exact hrb2
    · show e.2 = calcFromMovements (ms ++ [m']) e.1
      have hne : ¬ (m'.stock_record = e.1) := by
        rw [hk]
        exact fun hkk => h1.2 hkk.symm
      rw [calcFromMovements_append, if_neg hne, ← h.1 e h1.1]
      ring
  · intro m0 hm0
    rcases List.mem_append.mp hm0 with h1 | h1
    · show (lookupRecord (setRecord rs k rb) m0.stock_record).isSome = true
      rw [isSome_lookupRecord_setRecord]
      exact h.2 m0 h1
    · have hm0' : m0 = m' := by simpa using h1
      rw [hm0', hk]
      show (lookupRecord (setRecord rs k rb) k).isSome = true
      rw [lookupRecord_setRecord_self rb hc]
      rfl

theorem balances_modelSave (s : DBState) (m : StockMovement)
    (h : BalancesMatch s) (hpk : m.pk = none)
    (hsr : (lookupRecord s.records m.stock_record).isSome) :
    BalancesMatch (modelSave s m).1 := by
  unfold modelSave
  rw [hpk]
  cases hmty : m.movement_type with
  | IN =>
      dsimp only
      refine balances_insert s.records s.movements _ _ _ h rfl hsr ?_
      simp [movementSigned]
  | OUT =>
      dsimp only
      refine balances_insert s.records s.movements _ _ _ h rfl hsr ?_
      simp [movementSigned]
      ring
  | TRANSFER =>
      dsimp only
      refine balances_insert s.records s.movements _ _ _ h rfl hsr ?_
      simp [movementSigned]

theorem balances_postMovement (wname : Nat → String) (s : DBState)
    (r : MovementRequest) (h : BalancesMatch s)
    (hnt : ¬ (r.movement_type = .TRANSFER)) :
    BalancesMatch (postMovement wname s r).1 := by
  unfold postMovement
  by_cases h1 : r.quantity < 1 / 100
  · rw [if_pos h1]
    exact h
  · rw [if_neg h1]
    dsimp only
    have hBgoc : BalancesMatch
        ⟨(get_or_create s.records (r.product, r.warehouse)).1, s.movements⟩ :=
      balances_goc s.records s.movements _ h
    by_cases h2 : r.movement_type = .OUT ∧
        r.quantity > (get_or_create s.records (r.product, r.warehouse)).2
    · rw [if_pos h2]
      exact hBgoc
    · rw [if_neg h2, if_neg hnt]
      unfold createMovementTx
      have hsr : (lookupRecord
          ({ s with records := (get_or_create s.records (r.product, r.warehouse)).1 }).records
          (r.product, r.warehouse)).isSome := by
        rw [lookupRecord_get_or_create]
        rfl
      cases hmty : r.movement_type with
      | IN =>
          dsimp only
          exact balances_modelSave _ _ hBgoc rfl hsr
      | OUT =>
          dsimp only
          exact balances_modelSave _ _ hBgoc rfl hsr
      | TRANSFER => exact absurd hmty hnt

theorem balances_postAdjustment (s : DBState) (p w : Nat) (q : Rat) (n : String)
    (h : BalancesMatch s) :
    BalancesMatch (postAdjustment s p w q n).1 := by
  unfold postAdjustment
  by_cases h1 : q < 0
  · rw [if_pos h1]
    exact h
  · rw [if_neg h1]
    by_cases h2 : n = ""
    · rw [if_pos h2]
      exact h
    · rw [if_neg h2]
      dsimp only
      have hBgoc : BalancesMatch
          ⟨(get_or_create s.records (p, w)).1, s.movements⟩ :=
        balances_goc s.records s.movements _ h
      by_cases h3 : q - (get_or_create s.records (p, w)).2 = 0
      · rw [if_pos h3]
        exact h
      · rw [if_neg h3]
        have hsr : (lookupRecord
            ({ s with records := (get_or_create s.records (p, w)).1 }).records
            (p, w)).isSome := by
          rw [lookupRecord_get_or_create]
          rfl
        exact balances_modelSave _ _ hBgoc rfl hsr

theorem balances_applyOp (wname : Nat → String) (s : DBState) (op : Op)
    (h : BalancesMatch s) (hft : transferFree op = true) :
    BalancesMatch (applyOp wname s op) := by
  cases op with
  | move r =>
      have hnt : ¬ (r.movement_type = .TRANSFER) := by
        simpa [transferFree] using hft
      exact balances_postMovement wname s r h hnt
  | adjustOp p w q n => exact balances_postAdjustment s p w q n h

theorem balances_runOps (wname : Nat → String) (ops : List Op) :
    ∀ s : DBState, BalancesMatch s → (∀ op ∈ ops, transferFree op = true) →
      BalancesMatch (runOps wname ops s) := by
  induction ops with
  | nil => exact fun s hs _ => hs
  | cons op rest ih =>
      intro s hs hops
      have h1 : BalancesMatch (applyOp wname s op) :=
        balances_applyOp wname s op hs (hops op (List.mem_cons_self _ _))
      exact ih (applyOp wname s op) h1
        (fun o ho => hops o (List.mem_cons_of_mem _ ho))

theorem balances_initial : BalancesMatch initialState := by
  constructor
  · intro e he
    simp [initialState] at he
  · intro m hm
    simp [initialState] at hm

/-! ## Claim theorems -/

/-- C9: the quantity recomputed from history is the sum over the record's
movements of `+quantity` for IN rows, `-quantity` for OUT rows and `0` for
TRANSFER rows; with no movements it is `0`, and appending a TRANSFER row
leaves it unchanged. -/
theorem calc_quantity_signed_sum (s : DBState) (k : RecKey) :
    calculate_quantity_from_movements s k
      = (s.movements.map (fun m =>
          if m.stock_record = k then
            (match m.movement_type with
             | .IN => m.quantity
             | .OUT => -m.quantity
             | .TRANSFER => 0)
          else 0)).sum
    ∧ (∀ rs : List (RecKey × Rat), calculate_quantity_from_movements ⟨rs, []⟩ k = 0)
    ∧ (∀ m : StockMovement, m.movement_type = .TRANSFER →
        calculate_quantity_from_movements ⟨s.records, s.movements ++ [m]⟩ k
          = calculate_quantity_from_movements s k) := by
  refine ⟨calcFromMovements_eq_map_sum s.movements k, fun rs => rfl, fun m hm => ?_⟩
  show calcFromMovements (s.movements ++ [m]) k = calcFromMovements s.movements k
  rw [calcFromMovements_append]
  have hz : movementSigned m = 0 := by rw [movementSigned, hm]
  rw [hz]
  simp

/-- C9 witness: appending a concrete TRANSFER row to a concrete state does
not change the recomputed quantity. -/
theorem calc_quantity_signed_sum_witness :
    calculate_quantity_from_movements
        ⟨c7State.records, c7State.movements ++ [c9TransferMovement]⟩ (1, 1)
      = calculate_quantity_from_movements c7State (1, 1) :=
  (calc_quantity_signed_sum c7State (1, 1)).2.2 c9TransferMovement rfl

/-- C10: re-saving an already-persisted movement (pk set) leaves every
stock record untouched, does not recompute the movement's
`resulting_balance` (the instance is written back exactly as given), and
does not change the number of movement rows. -/
theorem resave_frame (s : DBState) (m : StockMovement) (i : Nat)
    (h : m.pk = some i) :
    (modelSave s m).1.records = s.records
    ∧ (modelSave s m).2 = m
    ∧ (modelSave s m).1.movements.length = s.movements.length := by
  have hsave : modelSave s m
      = (⟨s.records, s.movements.map (fun x => if x.pk = some i then m else x)⟩, m) := by
    unfold modelSave
    rw [h]
  rw [hsave]
  exact ⟨rfl, rfl, by simp⟩

/-- C10 witness: re-saving the persisted row `c10Movement` changes no
record and returns the row unmodified. -/
theorem resave_frame_witness :
    (modelSave c10State c10Movement).1.records = c10State.records
    ∧ (modelSave c10State c10Movement).2 = c10Movement
    ∧ (modelSave c10State c10Movement).1.movements.length
        = c10State.movements.length :=
  resave_frame c10State c10Movement 3 rfl

/-- C6 counterexample: an update (PUT) request on a committed movement is
not refused — it succeeds and rewrites the movement row (here its notes),
refuting the claim that any update/mutate request is rejected. -/
theorem movement_update_not_rejected :
    (updateMovement c6State 0 c6Update).2
      = .ok { pk := some 0, stock_record := (1, 1), movement_type := .IN
              quantity := 20, resulting_balance := 20, reason := .purchase
              notes := "edited", reference_document := "", unit_cost := none
              from_warehouse := none, to_warehouse := none }
    ∧ (updateMovement c6State 0 c6Update).1.movements ≠ c6State.movements := by
  refine ⟨?_, ?_⟩ <;>
    norm_num +decide [updateMovement, findMovement, modelSave, lookupRecord,
      c6State, c6Update, Prod.mk.injEq]

/-- C6 amended: every delete request on a movement is refused with the
fixed domain error directing the caller to an adjustment, the state is
returned unchanged, and the audit log keeps its length. -/
theorem destroy_movement_rejected (s : DBState) (i : Nat) :
    destroyMovement s i
      = (s, .error "Stock movements cannot be deleted. Please create an adjustment if needed.")
    ∧ (destroyMovement s i).1.movements.length = s.movements.length :=
  ⟨rfl, rfl⟩

/-- C1: the code accepts a transfer whose quantity exceeds the origin's
balance — at the failing input (origin at 5, transfer 10) the request
succeeds and drives the origin record to -5, violating non-negativity
instead of failing with InsufficientStock. -/
theorem transfer_overdraft_accepted :
    ((postMovement wnames c1State c1Request).2.toOption.isSome = true)
    ∧ lookupRecord (postMovement wnames c1State c1Request).1.records (1, 1)
        = some (-5)
    ∧ ((-5 : Rat) < 0) := by
  refine ⟨?_, ?_, by norm_num⟩ <;>
    norm_num +decide [postMovement, createMovementTx, modelSave, get_or_create,
      lookupRecord, setRecord, c1State, c1Request, wnames, Prod.mk.injEq]

/-- C2 counterexample: after one successful transfer (origin at 100 with a
matching IN-100 history, transfer 30), reconciling the origin record
reports `changed = true` — the stored balance is 70 but the TRANSFER row
contributes 0 to the recomputed sum of 100. -/
theorem reconcile_changed_after_transfer :
    ((postMovement wnames c2State transfer30).2.toOption.isSome = true)
    ∧ lookupRecord (postMovement wnames c2State transfer30).1.records (1, 1)
        = some 70
    ∧ calculate_quantity_from_movements
        (postMovement wnames c2State transfer30).1 (1, 1) = 100
    ∧ (reconcile (postMovement wnames c2State transfer30).1 (1, 1)).2 = true := by
  refine ⟨?_, ?_, ?_, ?_⟩ <;>
    norm_num +decide [postMovement, createMovementTx, modelSave, get_or_create,
      lookupRecord, setRecord, reconcile, calculate_quantity_from_movements,
      calcFromMovements, movementSigned, c2State, transfer30, wnames,
      Prod.mk.injEq]

/-- C3 counterexample: transferring 30 from warehouse A holding 100 leaves
the origin at 70, but the origin-side movement records
`resulting_balance = 100` — the pre-transfer balance, not the origin's
post-transfer balance. -/
theorem transfer_origin_stores_pretransfer_balance :
    (postMovement wnames c3State transfer30).2
      = .ok { pk := some 0, stock_record := (1, 1), movement_type := .TRANSFER
              quantity := 30, resulting_balance := 100, reason := .transfer
              notes := "", reference_document := "", unit_cost := none
              from_warehouse := some 1, to_warehouse := some 2 }
    ∧ lookupRecord (postMovement wnames c3State transfer30).1.records (1, 1)
        = some 70
    ∧ ((100 : Rat) ≠ 70) := by
  refine ⟨?_, ?_, by norm_num⟩ <;>
    norm_num +decide [postMovement, createMovementTx, modelSave, get_or_create,
      lookupRecord, setRecord, c3State, transfer30, wnames, Prod.mk.injEq]

/-- C7: reconciliation is idempotent — reconciling twice with no
intervening movements yields `changed = false` the second time, and
immediately after a reconcile the stored quantity equals the value
recomputed from the movement history. -/
theorem reconcile_idempotent (s : DBState) (k : RecKey)
    (h : (lookupRecord s.records k).isSome) :
    (reconcile (reconcile s k).1 k).2 = false
    ∧ lookupRecord (reconcile s k).1.records k
        = some (calculate_quantity_from_movements (reconcile s k).1 k) := by
  obtain ⟨c, hc⟩ := Option.isSome_iff_exists.mp h
  by_cases hne : c = calculate_quantity_from_movements s k
  · have h1 : reconcile s k = (s, false) := by
      simp only [reconcile, hc, Option.getD_some]
      rw [if_neg (not_not_intro hne)]
    rw [h1]
    constructor
    · rw [h1]
    · show lookupRecord s.records k = some (calculate_quantity_from_movements s k)
      rw [hc, hne]
  · have h1 : reconcile s k
        = ({ s with
              records := setRecord s.records k (calculate_quantity_from_movements s k) },
           true) := by
      simp only [reconcile, hc, Option.getD_some]
      rw [if_pos hne]
    have hlook : lookupRecord
        (setRecord s.records k (calculate_quantity_from_movements s k)) k
        = some (calculate_quantity_from_movements s k) :=
      lookupRecord_setRecord_self _ hc
    have h2 : reconcile
        ({ s with
            records := setRecord s.records k (calculate_quantity_from_movements s k) }) k
        = ({ s with
              records := setRecord s.records k (calculate_quantity_from_movements s k) },
           false) := by
      have hcalceq : calculate_quantity_from_movements
          ({ s with
              records := setRecord s.records k (calculate_quantity_from_movements s k) }) k
          = calculate_quantity_from_movements s k := rfl
      simp only [reconcile, hlook, Option.getD_some, hcalceq]
      rw [if_neg (not_not_intro rfl)]
    constructor
    · rw [h1]
      exact congrArg Prod.snd h2
    · rw [h1]
      exact hlook

/-- C7 witness: on a concrete record stored at 7 with history summing to
30, the second reconcile reports no change and the stored value matches
the recomputed one. -/
theorem reconcile_idempotent_witness :
    (reconcile (reconcile c7State (1, 1)).1 (1, 1)).2 = false
    ∧ lookupRecord (reconcile c7State (1, 1)).1.records (1, 1)
        = some (calculate_quantity_from_movements (reconcile c7State (1, 1)).1 (1, 1)) :=
  reconcile_idempotent c7State (1, 1) rfl

/-- C4: an OUT request against a record holding c fails with
`InsufficientStock` carrying the available amount c and leaves the state
unchanged when quantity > c; when quantity ≤ c the movement is created,
the record's balance becomes c - quantity, and that value is stored as
the movement's `resulting_balance`. -/
theorem out_movement_contract (wname : Nat → String) (s : DBState)
    (r : MovementRequest) (c : Rat)
    (hty : r.movement_type = .OUT)
    (hc : lookupRecord s.records (r.product, r.warehouse) = some c)
    (hq : 1 / 100 ≤ r.quantity) :
    (r.quantity > c → postMovement wname s r = (s, .error (.insufficientStock c)))
    ∧ (r.quantity ≤ c →
        ∃ m, postMovement wname s r
            = (⟨setRecord s.records (r.product, r.warehouse) (c - r.quantity),
                s.movements ++ [m]⟩, .ok m)
          ∧ m.resulting_balance = c - r.quantity
          ∧ m.quantity = r.quantity
          ∧ m.movement_type = .OUT
          ∧ lookupRecord (postMovement wname s r).1.records (r.product, r.warehouse)
              = some (c - r.quantity)) := by
  have hnq : ¬ (r.quantity < 1 / 100) := not_lt.mpr hq
  constructor
  · intro hgt
    have hcond : r.movement_type = .OUT ∧ r.quantity > c := ⟨hty, hgt⟩
    simp only [postMovement, get_or_create, hc, if_neg hnq, if_pos hcond]
  · intro hle
    have hgtneg : ¬ (c < r.quantity) := not_lt.mpr hle
    have heq : postMovement wname s r
        = (⟨setRecord s.records (r.product, r.warehouse) (c - r.quantity),
            s.movements ++
              [{ pk := some s.movements.length
                 stock_record := (r.product, r.warehouse)
                 movement_type := r.movement_type
                 quantity := r.quantity
                 resulting_balance := c - r.quantity
                 reason := r.reason
                 notes := r.notes
                 reference_document := r.reference_document
                 unit_cost := r.unit_cost
                 from_warehouse := none
                 to_warehouse := r.to_warehouse }]⟩,
           .ok { pk := some s.movements.length
                 stock_record := (r.product, r.warehouse)
                 movement_type := r.movement_type
                 quantity := r.quantity
                 resulting_balance := c - r.quantity
                 reason := r.reason
                 notes := r.notes
                 reference_document := r.reference_document
                 unit_cost := r.unit_cost
                 from_warehouse := none
                 to_warehouse := r.to_warehouse }) := by
      simp only [postMovement, createMovementTx, modelSave, get_or_create, hc,
        if_neg hnq, Option.getD_some, hty, true_and, gt_iff_lt, if_neg hgtneg,
        reduceCtorEq, reduceIte]
    refine ⟨_, heq, rfl, rfl, hty, ?_⟩
    rw [heq]
    exact lookupRecord_setRecord_self _ hc

/-- C4 witness: at a record holding 10, OUT 100 fails with
`InsufficientStock 10` leaving the state unchanged, while OUT 4 leaves
the record at 6. -/
theorem out_movement_contract_witness :
    (postMovement wnames c4State c4OutBig = (c4State, .error (.insufficientStock 10)))
    ∧ lookupRecord (postMovement wnames c4State c4OutSmall).1.records (1, 1)
        = some 6 := by
  constructor
  · exact (out_movement_contract wnames c4State c4OutBig 10 rfl rfl
      (by norm_num [c4OutBig])).1 (by norm_num [c4OutBig])
  · obtain ⟨m, heq, hrb, hq2, hmt, hlook⟩ :=
      (out_movement_contract wnames c4State c4OutSmall 10 rfl rfl
        (by norm_num [c4OutSmall])).2 (by norm_num [c4OutSmall])
    rw [show ((1, 1) : RecKey) = (c4OutSmall.product, c4OutSmall.warehouse) from rfl,
      hlook]
    norm_num [c4OutSmall]

/-- C5: an adjustment to `new_quantity` on a record currently holding c
(0 for a freshly created record) fails with `NoOpAdjustment` and leaves
the state unchanged exactly when the difference is zero; otherwise it
creates exactly one movement, typed IN when `new_quantity > c` and OUT
otherwise, of quantity `|new_quantity - c|`, with reason adjustment,
`resulting_balance = new_quantity`, and a notes text embedding the before
and after values. -/
theorem adjustment_contract (s : DBState) (p w : Nat) (new_quantity : Rat)
    (notes : String) (c : Rat)
    (hnn : 0 ≤ new_quantity) (hns : ¬ (notes = ""))
    (hcdef : (lookupRecord s.records (p, w)).getD 0 = c) :
    (new_quantity - c = 0 →
      postAdjustment s p w new_quantity notes = (s, .error .noOpAdjustment))
    ∧ (new_quantity - c ≠ 0 →
        ∃ m, postAdjustment s p w new_quantity notes
            = (⟨setRecord (get_or_create s.records (p, w)).1 (p, w) new_quantity,
                s.movements ++ [m]⟩, .ok m)
          ∧ m.movement_type = (if new_quantity > c then .IN else .OUT)
          ∧ m.quantity = |new_quantity - c|
          ∧ m.reason = .adjustment
          ∧ m.resulting_balance = new_quantity
          ∧ m.notes = adjustmentNote notes c new_quantity) := by
  have hnneg : ¬ (new_quantity < 0) := not_lt.mpr hnn
  constructor
  · intro hd0
    simp only [postAdjustment, if_neg hnneg, if_neg hns, get_or_create_snd, hcdef,
      if_pos hd0]
  · intro hdne
    by_cases hdpos : 0 < new_quantity - c
    · have habs : |new_quantity - c| = new_quantity - c := abs_of_pos hdpos
      have hrb : c + |new_quantity - c| = new_quantity := by rw [habs]; ring
      have heq : postAdjustment s p w new_quantity notes
          = (⟨setRecord (get_or_create s.records (p, w)).1 (p, w) new_quantity,
              s.movements ++
                [{ pk := some s.movements.length
                   stock_record := (p, w)
                   movement_type := .IN
                   quantity := |new_quantity - c|
                   resulting_balance := new_quantity
                   reason := .adjustment
                   notes := adjustmentNote notes c new_quantity
                   reference_document := ""
                   unit_cost := none
                   from_warehouse := none
                   to_warehouse := none }]⟩,
             .ok { pk := some s.movements.length
                   stock_record := (p, w)
                   movement_type := .IN
                   quantity := |new_quantity - c|
                   resulting_balance := new_quantity
                   reason := .adjustment
                   notes := adjustmentNote notes c new_quantity
                   reference_document := ""
                   unit_cost := none
                   from_warehouse := none
                   to_warehouse := none }) := by
        simp only [postAdjustment, if_neg hnneg, if_neg hns, get_or_create_snd, hcdef,
          if_neg hdne, gt_iff_lt, if_pos hdpos, modelSave, lookupRecord_get_or_create,
          Option.getD_some, hrb]
      refine ⟨_, heq, ?_, rfl, rfl, rfl, rfl⟩
      rw [if_pos (sub_pos.mp hdpos)]
    · have hdneg : new_quantity - c < 0 := lt_of_le_of_ne (not_lt.mp hdpos) hdne
      have habs : |new_quantity - c| = -(new_quantity - c) := abs_of_neg hdneg
      have hrb : c - |new_quantity - c| = new_quantity := by rw [habs]; ring
      have heq : postAdjustment s p w new_quantity notes
          = (⟨setRecord (get_or_create s.records (p, w)).1 (p, w) new_quantity,
              s.movements ++
                [{ pk := some s.movements.length
                   stock_record := (p, w)
                   movement_type := .OUT
                   quantity := |new_quantity - c|
                   resulting_balance := new_quantity
                   reason := .adjustment
                   notes := adjustmentNote notes c new_quantity
                   reference_document := ""
                   unit_cost := none
                   from_warehouse := none
                   to_warehouse := none }]⟩,
             .ok { pk := some s.movements.length
                   stock_record := (p, w)
                   movement_type := .OUT
                   quantity := |new_quantity - c|
                   resulting_balance := new_quantity
                   reason := .adjustment
                   notes := adjustmentNote notes c new_quantity
                   reference_document := ""
                   unit_cost := none
                   from_warehouse := none
                   to_warehouse := none }) := by
        simp only [postAdjustment, if_neg hnneg, if_neg hns, get_or_create_snd, hcdef,
          if_neg hdne, gt_iff_lt, if_neg hdpos, modelSave, lookupRecord_get_or_create,
          Option.getD_some, hrb]
      refine ⟨_, heq, ?_, rfl, rfl, rfl, rfl⟩
      rw [if_neg (fun hgt => hdpos (sub_pos.mpr hgt))]

/-- C5 witness: a record at 40 adjusted to 40 fails with `NoOpAdjustment`
and the state is unchanged; adjusted to 45 it creates one IN movement of
quantity 5 with reason adjustment, `resulting_balance` 45 and notes
embedding 40 and 45. -/
theorem adjustment_contract_witness :
    (postAdjustment c5State 1 1 40 "Recount" = (c5State, .error .noOpAdjustment))
    ∧ ∃ m, postAdjustment c5State 1 1 45 "Physical count"
          = (⟨setRecord (get_or_create c5State.records (1, 1)).1 (1, 1) 45,
              c5State.movements ++ [m]⟩, .ok m)
        ∧ m.movement_type = (if (45 : Rat) > 40 then .IN else .OUT)
        ∧ m.quantity = |(45 : Rat) - 40|
        ∧ m.reason = .adjustment
        ∧ m.resulting_balance = 45
        ∧ m.notes = adjustmentNote "Physical count" 40 45 := by
  constructor
  · exact (adjustment_contract c5State 1 1 40 "Recount" 40 (by norm_num)
      (by decide) rfl).1 (by norm_num)
  · exact (adjustment_contract c5State 1 1 45 "Physical count" 40 (by norm_num)
      (by decide) rfl).2 (by norm_num)

/-- C8 counterexample: with required `ram` missing and two unknown keys
`foo` and `bar`, validation reports one entry for `ram` but a single
aggregate entry keyed `specifications` for both unknown keys — not one
per-field entry for each offending field. -/
theorem unknown_keys_single_error_entry :
    validateSpecifications c8Template c8Specs
      = .error [("ram", "Ram is required"),
                ("specifications", "Unknown attributes not in template: foo, bar")]
    ∧ ([("ram", "Ram is required"),
        ("specifications", "Unknown attributes not in template: foo, bar")].map
          Prod.fst)
        = ["ram", "specifications"] := by
  refine ⟨?_, by simp⟩
  norm_num +decide [validateSpecifications, processAttr, unknownKeys, joinComma,
    lookupSpec, pyTruthy, pyEqZero, pyEqFalse, validateAttributeValue, pyFloat,
    parseFloatString, parseFloatCore, parseExponent, natOfDigits,
    c8Template, c8Specs]

/-- C2 amended: after any sequence of IN, OUT and adjustment operations
(no transfers) starting from the empty database, every stock record's
stored quantity equals the signed sum of the movements referencing it,
and reconcile returns the state unchanged with `changed = false`. -/
theorem balance_invariant_transfer_free (wname : Nat → String) (ops : List Op)
    (hops : ∀ op ∈ ops, transferFree op = true) :
    ∀ k c, lookupRecord (runOps wname ops initialState).records k = some c →
      c = calculate_quantity_from_movements (runOps wname ops initialState) k
      ∧ reconcile (runOps wname ops initialState) k
          = (runOps wname ops initialState, false) := by
  have hB : BalancesMatch (runOps wname ops initialState) :=
    balances_runOps wname ops initialState balances_initial hops
  intro k c hl
  have hceq : c = calculate_quantity_from_movements (runOps wname ops initialState) k :=
    hB.1 _ (lookupRecord_mem hl)
  refine ⟨hceq, ?_⟩
  simp only [reconcile, hl, Option.getD_some]
  rw [if_neg (not_not_intro hceq)]

/-- C2 witness: running IN 30, OUT 5, adjust-to-45 from the empty database
leaves the record at 45, equal to its movement sum, and reconcile reports
no change. -/
theorem balance_invariant_transfer_free_witness :
    (45 : Rat) = calculate_quantity_from_movements
        (runOps wnames c2WitnessOps initialState) (1, 1)
    ∧ reconcile (runOps wnames c2WitnessOps initialState) (1, 1)
        = (runOps wnames c2WitnessOps initialState, false) :=
  balance_invariant_transfer_free wnames c2WitnessOps (by decide) (1, 1) 45
    (by norm_num +decide [runOps, applyOp, postMovement, postAdjustment,
      createMovementTx, modelSave, get_or_create, lookupRecord, setRecord,
      initialState, c2WitnessOps, wnames, adjustmentNote, pyFloatStr,
      Prod.mk.injEq, List.foldl])

/-- C3 amended: a transfer of q from a warehouse holding c ≥ q to a
different warehouse debits the origin by q, credits the destination by q
(creating its record at 0 if absent), conserves the total across the two
records, and creates exactly the two movements — the destination leg
stores the destination's post-transfer balance, while the origin leg
stores the origin's PRE-transfer balance c. -/
theorem transfer_effect (wname : Nat → String) (s : DBState)
    (r : MovementRequest) (w : Nat) (c : Rat)
    (hty : r.movement_type = .TRANSFER)
    (hto : r.to_warehouse = some w)
    (hne : ¬ (w = r.warehouse))
    (hc : lookupRecord s.records (r.product, r.warehouse) = some c)
    (hq : 1 / 100 ≤ r.quantity)
    (hqc : r.quantity ≤ c) :
    ∃ m1 m2,
      (postMovement wname s r).2 = .ok m1
      ∧ (postMovement wname s r).1.movements = s.movements ++ [m1, m2]
      ∧ lookupRecord (postMovement wname s r).1.records (r.product, r.warehouse)
          = some (c - r.quantity)
      ∧ lookupRecord (postMovement wname s r).1.records (r.product, w)
          = some ((lookupRecord s.records (r.product, w)).getD 0 + r.quantity)
      ∧ m1.movement_type = .TRANSFER
      ∧ m1.quantity = r.quantity
      ∧ m1.resulting_balance = c
      ∧ m1.stock_record = (r.product, r.warehouse)
      ∧ m2.movement_type = .IN
      ∧ m2.quantity = r.quantity
      ∧ m2.stock_record = (r.product, w)
      ∧ m2.resulting_balance = (lookupRecord s.records (r.product, w)).getD 0 + r.quantity
      ∧ (c - r.quantity) + ((lookupRecord s.records (r.product, w)).getD 0 + r.quantity)
          = c + (lookupRecord s.records (r.product, w)).getD 0 := by
  have hnq : ¬ (r.quantity < 1 / 100) := not_lt.mpr hq
  have hkdne : ((r.product, w) : RecKey) ≠ (r.product, r.warehouse) := by
    intro hx
    exact hne (congrArg Prod.snd hx)
  have hone : ((r.product, r.warehouse) : RecKey) ≠ (r.product, w) := fun hx => hkdne hx.symm
  have hlo : lookupRecord (setRecord s.records (r.product, r.warehouse) c)
      (r.product, r.warehouse) = some c := lookupRecord_setRecord_self c hc
  have hlo2 : lookupRecord
      (setRecord (setRecord s.records (r.product, r.warehouse) c)
        (r.product, r.warehouse) (c - r.quantity)) (r.product, r.warehouse)
      = some (c - r.quantity) := lookupRecord_setRecord_self _ hlo
  cases hd : lookupRecord s.records (r.product, w) with
  | some d =>
      have hlkd : lookupRecord
          (setRecord (setRecord s.records (r.product, r.warehouse) c)
            (r.product, r.warehouse) (c - r.quantity)) (r.product, w)
          = some d := by
        rw [lookupRecord_setRecord_ne _ _ hkdne, lookupRecord_setRecord_ne _ _ hkdne, hd]
      have hpost : postMovement wname s r
          = (⟨setRecord
                (setRecord (setRecord s.records (r.product, r.warehouse) c)
                  (r.product, r.warehouse) (c - r.quantity))
                (r.product, w) (d + r.quantity),
              s.movements ++
                  [{ pk := some s.movements.length
                     stock_record := (r.product, r.warehouse)
                     movement_type := .TRANSFER
                     quantity := r.quantity
                     resulting_balance := c
                     reason := r.reason
                     notes := r.notes
                     reference_document := r.reference_document
                     unit_cost := r.unit_cost
                     from_warehouse := some r.warehouse
                     to_warehouse := some w }] ++
                [{ pk := some (s.movements.length + 1)
                   stock_record := (r.product, w)
                   movement_type := .IN
                   quantity := r.quantity
                   resulting_balance := d + r.quantity
                   reason := .transfer
                   notes := "Transfer from " ++ wname r.warehouse
                   reference_document := r.reference_document
                   unit_cost := r.unit_cost
                   from_warehouse := some r.warehouse
                   to_warehouse := some w }]⟩,
             .ok { pk := some s.movements.length
                   stock_record := (r.product, r.warehouse)
                   movement_type := .TRANSFER
                   quantity := r.quantity
                   resulting_balance := c
                   reason := r.reason
                   notes := r.notes
                   reference_document := r.reference_document
                   unit_cost := r.unit_cost
                   from_warehouse := some r.warehouse
                   to_warehouse := some w }) := by
        simp only [postMovement, createMovementTx, modelSave, get_or_create, hc, hto,
          hty, if_neg hnq, if_neg hne, hlo, hlkd, Option.getD_some, reduceCtorEq,
          reduceIte, false_and, true_and, gt_iff_lt, List.length_append,
          List.length_singleton, List.length_nil, zero_add]
      refine ⟨{ pk := some s.movements.length
                stock_record := (r.product, r.warehouse)
                movement_type := .TRANSFER
                quantity := r.quantity
                resulting_balance := c
                reason := r.reason
                notes := r.notes
                reference_document := r.reference_document
                unit_cost := r.unit_cost
                from_warehouse := some r.warehouse
                to_warehouse := some w },
        { pk := some (s.movements.length + 1)
          stock_record := (r.product, w)
          movement_type := .IN
          quantity := r.quantity
          resulting_balance := d + r.quantity
          reason := .transfer
          notes := "Transfer from " ++ wname r.warehouse
          reference_document := r.reference_document
          unit_cost := r.unit_cost
          from_warehouse := some r.warehouse
          to_warehouse := some w },
        ?_, ?_, ?_, ?_, rfl, rfl, rfl, rfl, rfl, rfl, rfl, ?_, ?_⟩
      · rw [hpost]
      · rw [hpost]
        simp
      · rw [hpost]
        show lookupRecord (setRecord _ (r.product, w) (d + r.quantity))
            (r.product, r.warehouse) = some (c - r.quantity)
        rw [lookupRecord_setRecord_ne _ _ hone]
        exact hlo2
      · rw [hpost]
        simp only [Option.getD_some]
        exact lookupRecord_setRecord_self _ hlkd
      · simp
      · simp only [Option.getD_some]
        ring
  | none =>
      have hlkd : lookupRecord
          (setRecord (setRecord s.records (r.product, r.warehouse) c)
            (r.product, r.warehouse) (c - r.quantity)) (r.product, w)
          = none := by
        rw [lookupRecord_setRecord_ne _ _ hkdne, lookupRecord_setRecord_ne _ _ hkdne, hd]
      have hlkd2 : lookupRecord
          (setRecord (setRecord s.records (r.product, r.warehouse) c)
            (r.product, r.warehouse) (c - r.quantity) ++ [((r.product, w), 0)])
          (r.product, w) = some 0 := by
        rw [lookupRecord_append_none _ hlkd]
        simp [lookupRecord]
      have hlo3 : lookupRecord
          (setRecord (setRecord s.records (r.product, r.warehouse) c)
            (r.product, r.warehouse) (c - r.quantity) ++ [((r.product, w), 0)])
          (r.product, r.warehouse) = some (c - r.quantity) :=
        lookupRecord_append_some _ hlo2
      have hpost : postMovement wname s r
          = (⟨setRecord
                (setRecord (setRecord s.records (r.product, r.warehouse) c)
                  (r.product, r.warehouse) (c - r.quantity) ++ [((r.product, w), 0)])
                (r.product, w) (0 + r.quantity),
              s.movements ++
                  [{ pk := some s.movements.length
                     stock_record := (r.product, r.warehouse)
                     movement_type := .TRANSFER
                     quantity := r.quantity
                     resulting_balance := c
                     reason := r.reason
                     notes := r.notes
                     reference_document := r.reference_document
                     unit_cost := r.unit_cost
                     from_warehouse := some r.warehouse
                     to_warehouse := some w }] ++
                [{ pk := some (s.movements.length + 1)
                   stock_record := (r.product, w)
                   movement_type := .IN
                   quantity := r.quantity
                   resulting_balance := 0 + r.quantity
                   reason := .transfer
                   notes := "Transfer from " ++ wname r.warehouse
                   reference_document := r.reference_document
                   unit_cost := r.unit_cost
                   from_warehouse := some r.warehouse
                   to_warehouse := some w }]⟩,
             .ok { pk := some s.movements.length
                   stock_record := (r.product, r.warehouse)
                   movement_type := .TRANSFER
                   quantity := r.quantity
                   resulting_balance := c
                   reason := r.reason
                   notes := r.notes
                   reference_document := r.reference_document
                   unit_cost := r.unit_cost
                   from_warehouse := some r.warehouse
                   to_warehouse := some w }) := by
        simp only [postMovement, createMovementTx, modelSave, get_or_create, hc, hto,
          hty, if_neg hnq, if_neg hne, hlo, hlkd, hlkd2, Option.getD_some,
          reduceCtorEq, reduceIte, false_and, true_and, gt_iff_lt,
          List.length_append, List.length_singleton, List.length_nil]
      refine ⟨{ pk := some s.movements.length
                stock_record := (r.product, r.warehouse)
                movement_type := .TRANSFER
                quantity := r.quantity
                resulting_balance := c
                reason := r.reason
                notes := r.notes
                reference_document := r.reference_document
                unit_cost := r.unit_cost
                from_warehouse := some r.warehouse
                to_warehouse := some w },
        { pk := some (s.movements.length + 1)
          stock_record := (r.product, w)
          movement_type := .IN
          quantity := r.quantity
          resulting_balance := 0 + r.quantity
          reason := .transfer
          notes := "Transfer from " ++ wname r.warehouse
          reference_document := r.reference_document
          unit_cost := r.unit_cost
          from_warehouse := some r.warehouse
          to_warehouse := some w },
        ?_, ?_, ?_, ?_, rfl, rfl, rfl, rfl, rfl, rfl, rfl, ?_, ?_⟩
      · rw [hpost]
      · rw [hpost]
        simp
      · rw [hpost]
        show lookupRecord (setRecord _ (r.product, w) (0 + r.quantity))
            (r.product, r.warehouse) = some (c - r.quantity)
        rw [lookupRecord_setRecord_ne _ _ hone]
        exact hlo3
      · rw [hpost]
        simp only [Option.getD_none]
        exact lookupRecord_setRecord_self _ hlkd2
      · simp
      · simp only [Option.getD_none]
        ring

/-- C3 witness: warehouse A at 100, transfer 30 to warehouse B — A ends at
70, B at 30, totals conserved, origin leg records 100. -/
theorem transfer_effect_witness :
    ∃ m1 m2,
      (postMovement wnames c3State transfer30).2 = .ok m1
      ∧ (postMovement wnames c3State transfer30).1.movements
          = c3State.movements ++ [m1, m2]
      ∧ lookupRecord (postMovement wnames c3State transfer30).1.records
          (transfer30.product, transfer30.warehouse)
          = some (100 - transfer30.quantity)
      ∧ lookupRecord (postMovement wnames c3State transfer30).1.records
          (transfer30.product, 2)
          = some ((lookupRecord c3State.records (transfer30.product, 2)).getD 0
              + transfer30.quantity)
      ∧ m1.movement_type = .TRANSFER
      ∧ m1.quantity = transfer30.quantity
      ∧ m1.resulting_balance = 100
      ∧ m1.stock_record = (transfer30.product, transfer30.warehouse)
      ∧ m2.movement_type = .IN
      ∧ m2.quantity = transfer30.quantity
      ∧ m2.stock_record = (transfer30.product, 2)
      ∧ m2.resulting_balance
          = (lookupRecord c3State.records (transfer30.product, 2)).getD 0
              + transfer30.quantity
      ∧ (100 - transfer30.quantity)
          + ((lookupRecord c3State.records (transfer30.product, 2)).getD 0
              + transfer30.quantity)
          = 100 + (lookupRecord c3State.records (transfer30.product, 2)).getD 0 :=
  transfer_effect wnames c3State transfer30 2 100 rfl rfl (by decide) rfl
    (by norm_num [transfer30]) (by norm_num [transfer30])


/-- The `errors` accumulator of one `ProductSerializer.validate` loop
iteration grows by exactly the attribute's error entry, if any. -/
theorem processAttr_fst (specs : List (String × Value)) (ta : TemplateAttr)
    (es : List (String × String)) (vs : List (String × Value)) :
    (processAttr specs (es, vs) ta).1 = es ++ (attrErrorEntry specs ta).toList := by
  unfold processAttr attrErrorEntry
  dsimp only
  split
  all_goals try split
  all_goals try split
  all_goals try split
  all_goals simp



/-- Over the whole loop, the collected errors are exactly the per-attribute
error entries in template order. -/
theorem foldl_errors (specs : List (String × Value)) :
    ∀ (tas : List TemplateAttr) (acc : List (String × String) × List (String × Value)),
      (tas.foldl (processAttr specs) acc).1
        = acc.1 ++ tas.filterMap (attrErrorEntry specs) := by
  intro tas
  induction tas with
  | nil =>
      intro acc
      simp
  | cons ta rest ih =>
      intro acc
      rw [List.foldl_cons, ih (processAttr specs acc ta)]
      have hfst : (processAttr specs acc ta).1
          = acc.1 ++ (attrErrorEntry specs ta).toList := processAttr_fst specs ta acc.1 acc.2
      rw [hfst]
      cases he : attrErrorEntry specs ta with
      | none => simp [List.filterMap_cons, he]
      | some e => simp [List.filterMap_cons, he]

/-- C8 amended: whenever any field offends (a template attribute required
and missing with no default, a value failing its data-type coercion, or an
unknown specification key), validation fails with all errors collected:
one per-field entry for every offending template attribute and a single
aggregate entry keyed `specifications` naming every unknown key. -/
theorem specification_errors_collected (tas : List TemplateAttr)
    (specs : List (String × Value))
    (hoff : tas.filterMap (attrErrorEntry specs) ≠ [] ∨ unknownKeys tas specs ≠ []) :
    ∃ E, validateSpecifications tas specs = .error E
      ∧ (∀ ta ∈ tas, ∀ ent, attrErrorEntry specs ta = some ent → ent ∈ E)
      ∧ (unknownKeys tas specs ≠ [] →
          ("specifications",
            "Unknown attributes not in template: " ++ joinComma (unknownKeys tas specs)) ∈ E) := by
  have hfold : (tas.foldl (processAttr specs) ([], [])).1
      = tas.filterMap (attrErrorEntry specs) := by
    rw [foldl_errors specs tas ([], [])]
    rfl
  by_cases hu : unknownKeys tas specs = []
  · have hne : tas.filterMap (attrErrorEntry specs) ≠ [] :=
      hoff.resolve_right (not_not_intro hu)
    refine ⟨tas.filterMap (attrErrorEntry specs), ?_, ?_, ?_⟩
    · simp only [validateSpecifications, hfold, hu, reduceIte]
      rw [if_neg hne]
    · intro ta hta ent hent
      exact List.mem_filterMap.mpr ⟨ta, hta, hent⟩
    · intro hk
      exact absurd hu hk
  · refine ⟨tas.filterMap (attrErrorEntry specs) ++
      [("specifications",
        "Unknown attributes not in template: " ++ joinComma (unknownKeys tas specs))], ?_, ?_, ?_⟩
    · simp only [validateSpecifications, hfold, if_neg hu]
      rw [if_neg (by simp)]
    · intro ta hta ent hent
      exact List.mem_append.mpr (Or.inl (List.mem_filterMap.mpr ⟨ta, hta, hent⟩))
    · intro _
      exact List.mem_append.mpr (Or.inr (by simp))

/-- C8 witness: a template requiring `ram` (number) and `brand` (text)
against specifications where `ram` fails coercion, `brand` is missing and
`zzz` is unknown — the error set contains all three kinds of entries. -/
theorem specification_errors_collected_witness :
    ∃ E, validateSpecifications c8WitnessTemplate c8WitnessSpecs = .error E
      ∧ (∀ ta ∈ c8WitnessTemplate, ∀ ent,
          attrErrorEntry c8WitnessSpecs ta = some ent → ent ∈ E)
      ∧ (unknownKeys c8WitnessTemplate c8WitnessSpecs ≠ [] →
          ("specifications",
            "Unknown attributes not in template: "
              ++ joinComma (unknownKeys c8WitnessTemplate c8WitnessSpecs)) ∈ E) :=
  specification_errors_collected c8WitnessTemplate c8WitnessSpecs (Or.inr (by decide))

end Inventory
